import Mathlib

set_option maxRecDepth 100000

/-!
Verification development for the voice-assistant repository.

Shallow embedding of the conversation session (chatgpt_api.py), the audio
capture loop (stt.py), the speech output adapter (tts.py) and the
orchestrator cycle (assistant.py), with theorems settling the spec claims.
-/

namespace VA

/-! ## Data model (chatgpt_api.py): messages and conversation history -/

inductive Role where
  | system
  | user
  | assistant
deriving DecidableEq, Repr

structure Message where
  role : Role
  content : String
deriving DecidableEq, Repr

def isSystem (m : Message) : Bool := m.role == Role.system

def notSystem (m : Message) : Bool := !(isSystem m)

/-- config.py: `MAX_CONVERSATION_HISTORY: int = 10`. -/
def MAX_CONVERSATION_HISTORY : Nat := 10

/-- Python list slice `l[s:]` with a possibly negative start index `s`:
start is clamped to `max 0 (len + s)` for negative `s`, else to `s`. -/
def pySliceFrom {α : Type} (l : List α) (s : Int) : List α :=
  if s < 0 then l.drop (s + l.length).toNat else l.drop s.toNat

/-- chatgpt_api.py `_trim_history`: when the history exceeds `max_history`,
keep the system messages and the Python slice
`other_msgs[-(max_history - len(system_msgs)):]` of the non-system ones. -/
def _trim_history (max_history : Nat) (history : List Message) : List Message :=
  if history.length > max_history then
    history.filter isSystem ++
      pySliceFrom (history.filter notSystem)
        (-((max_history : Int) - (((history.filter isSystem).length : Nat) : Int)))
  else
    history

/-- chatgpt_api.py `reset_conversation`: keep only the system messages. -/
def reset_conversation (history : List Message) : List Message :=
  history.filter isSystem

/-- chatgpt_api.py `get_token_usage_estimate`:
`sum(len(msg["content"]) for msg in history) // 4`. -/
def get_token_usage_estimate (history : List Message) : Nat :=
  (history.map fun m => m.content.length).sum / 4

/-- Python `str.strip()` (with the default whitespace set): drop leading
and trailing whitespace characters.  Stated over the character list so
that it evaluates by kernel reduction. -/
def pyStrip (s : String) : String :=
  String.mk (((s.data.dropWhile Char.isWhitespace).reverse.dropWhile Char.isWhitespace).reverse)

/-- Outcome of the remote chat-completion call in `send_message`:
either a successful top-choice text, or one of the exception classes the
Python code catches (`RateLimitError`, `APIConnectionError`, `APIError`,
bare `Exception`). -/
inductive ApiOutcome where
  | success : String → ApiOutcome
  | rateLimitError : ApiOutcome
  | apiConnectionError : ApiOutcome
  | apiError : ApiOutcome
  | unexpectedError : ApiOutcome
deriving DecidableEq, Repr

/-- Fallback sentence of the `except RateLimitError` branch. -/
def rateLimitFallback : String :=
  "I\x27m receiving too many requests right now. Please try again in a moment."

/-- Fallback sentence of the `except APIConnectionError` branch. -/
def connectionFallback : String :=
  "I\x27m having trouble connecting to my servers. Please check your internet connection."

/-- Fallback sentence of the `except APIError` branch. -/
def apiErrorFallback : String :=
  "I encountered an error processing your request. Please try again."

/-- Fallback sentence of the `except Exception` branch. -/
def unexpectedFallback : String :=
  "An unexpected error occurred. Please try again."

/-- chatgpt_api.py `send_message`, with the remote call modelled as a
function `api` from the message list sent to its outcome.  Returns the
returned string (`none` for Python `None`) and the resulting stored
history (`self.conversation_history`). -/
def send_message (max_history : Nat) (history : List Message) (user_message : String)
    (api : List Message → ApiOutcome) : Option String × List Message :=
  if pyStrip user_message = "" then
    (none, history)
  else
    let history1 := history ++ [⟨Role.user, user_message⟩]
    match api history1 with
    | ApiOutcome.success text =>
        let assistant_message := pyStrip text
        let history2 := history1 ++ [⟨Role.assistant, assistant_message⟩]
        (some assistant_message, _trim_history max_history history2)
    | ApiOutcome.rateLimitError => (some rateLimitFallback, history1)
    | ApiOutcome.apiConnectionError => (some connectionFallback, history1)
    | ApiOutcome.apiError => (some apiErrorFallback, history1)
    | ApiOutcome.unexpectedError => (some unexpectedFallback, history1)

/-- The history invariant of the data model: at most one system message,
first when present — equivalently, every message after the head is
non-system. -/
def historyInv (history : List Message) : Bool :=
  match history with
  | [] => true
  | _ :: rest => rest.all notSystem

/-! ## Audio capture (stt.py `record_audio`) -/

/-- One device read in the capture loop: either a chunk of int16 samples
(`stream.read`) or a raised exception. -/
inductive ChunkRead where
  | ok : List Int → ChunkRead
  | raise : ChunkRead
deriving DecidableEq, Repr

/-- `np.abs(audio_data).mean() > silence_threshold`, stated exactly over the
integers: the mean of the absolute samples exceeds the threshold iff the sum
of absolute samples exceeds `threshold * length` (false for an empty chunk). -/
def chunkHasSpeech (silence_threshold : Nat) (chunk : List Int) : Bool :=
  silence_threshold * chunk.length < (chunk.map Int.natAbs).sum

/-- The `for _ in range(max_chunks)` loop of `record_audio`.  `device i` is
the outcome of the `i`-th `stream.read`; a raised read is caught by the
inner `except`, which logs and breaks out of the loop.  Returns the
accumulated frames and the `has_speech` flag. -/
def recordLoop (silence_threshold max_silent_chunks : Nat) (device : Nat → ChunkRead) :
    Nat → Nat → List (List Int) → Nat → Bool → List (List Int) × Bool
  | _, 0, frames, _, has_speech => (frames, has_speech)
  | i, fuel + 1, frames, silent_chunks, has_speech =>
    match device i with
    | ChunkRead.raise => (frames, has_speech)
    | ChunkRead.ok chunk =>
      let frames2 := frames ++ [chunk]
      if chunkHasSpeech silence_threshold chunk then
        recordLoop silence_threshold max_silent_chunks device (i + 1) fuel frames2 0 true
      else if has_speech then
        if silent_chunks + 1 > max_silent_chunks then
          (frames2, true)
        else
          recordLoop silence_threshold max_silent_chunks device (i + 1) fuel frames2
            (silent_chunks + 1) true
      else
        recordLoop silence_threshold max_silent_chunks device (i + 1) fuel frames2
          silent_chunks false

/-- stt.py `record_audio`: run the capture loop; if no speech was detected,
return `none` (Python `None`), else the concatenation of all recorded
frames.  (The source additionally rescales the int16 samples to float in
[-1, 1] by dividing by 32768 — a bijection on sample values that does not
affect which captures are `None`, so the raw samples are returned here.) -/
def record_audio (silence_threshold max_silent_chunks max_chunks : Nat)
    (device : Nat → ChunkRead) : Option (List Int) :=
  let result := recordLoop silence_threshold max_silent_chunks device 0 max_chunks [] 0 false
  if result.2 then some result.1.flatten else none

/-! ## Speech output adapter (tts.py) -/

/-- The underlying pyttsx3 engine, with a flag modelling an engine whose
`setProperty` calls raise. -/
structure Pyttsx3Engine where
  failsOnCommand : Bool
  rate : Int
  volume : Rat
deriving DecidableEq, Repr

structure TextToSpeech where
  engine : Option Pyttsx3Engine
  voice_rate : Int
deriving DecidableEq, Repr

/-- tts.py `stop`: `engine.stop()` inside `try/except` — any engine error is
caught and logged, so the call never propagates an exception. -/
def TextToSpeech.stop (t : TextToSpeech) : Except Unit TextToSpeech :=
  match t.engine with
  | none => Except.ok t
  | some _ => Except.ok t

/-- tts.py `set_rate`: `engine.setProperty("rate", rate)` with no
`try/except` — a raising engine propagates the exception, and
`self.voice_rate` is only updated after a successful `setProperty`. -/
def TextToSpeech.set_rate (t : TextToSpeech) (rate : Int) : Except Unit TextToSpeech :=
  match t.engine with
  | none => Except.ok t
  | some e =>
    if e.failsOnCommand then Except.error ()
    else Except.ok { engine := some { e with rate := rate }, voice_rate := rate }

/-- tts.py `set_volume`: clamps `volume` with `max(0.0, min(1.0, volume))`,
then `engine.setProperty("volume", volume)` with no `try/except`. -/
def TextToSpeech.set_volume (t : TextToSpeech) (volume : Rat) : Except Unit TextToSpeech :=
  match t.engine with
  | none => Except.ok t
  | some e =>
    let v := max 0 (min 1 volume)
    if e.failsOnCommand then Except.error ()
    else Except.ok { t with engine := some { e with volume := v } }

/-! ## Orchestrator cycle (assistant.py) -/

/-- Outcome of one Python call inside the conversation cycle: a returned
value or a raised exception. -/
inductive StepResult (α : Type) where
  | ok : α → StepResult α
  | raise : StepResult α

/-- The two fallible steps of one conversation cycle.
`record_and_transcribe` models `self.stt.record_and_transcribe()` and
`chat` models `self.chatgpt.send_message(user_text)`; `ok none` stands for
a Python-falsy result (`None` or the empty string).  `tts.speak` is not an
oracle because tts.py catches engine errors internally and returns a bool,
which `handle_conversation` ignores. -/
structure CycleOracle where
  record_and_transcribe : StepResult (Option String)
  chat : StepResult (Option String)

/-- assistant.py: `"I didn't catch that. Please try again."` -/
def didntCatchSentence : String := "I didn\x27t catch that. Please try again."

/-- assistant.py: `"I'm having trouble processing your request. Please try again."` -/
def troubleProcessingSentence : String :=
  "I\x27m having trouble processing your request. Please try again."

/-- assistant.py: `"I encountered an error. Please try again."` -/
def cycleErrorSentence : String := "I encountered an error. Please try again."

/-- The body of `handle_conversation`'s `try` block: the sequence of
`tts.speak` texts it produces, or `error` if a step raised. -/
def conversation_body (o : CycleOracle) : Except Unit (List String) :=
  match o.record_and_transcribe with
  | StepResult.raise => Except.error ()
  | StepResult.ok none => Except.ok [didntCatchSentence]
  | StepResult.ok (some _) =>
    match o.chat with
    | StepResult.raise => Except.error ()
    | StepResult.ok none => Except.ok [troubleProcessingSentence]
    | StepResult.ok (some response) => Except.ok [response]

/-- assistant.py `handle_conversation`: the `except Exception` handler
converts any raised step into the spoken fixed error sentence, so the
cycle always returns normally. -/
def handle_conversation (o : CycleOracle) : List String :=
  match conversation_body o with
  | Except.ok spoken => spoken
  | Except.error _ => [cycleErrorSentence]

/-- assistant.py `run`'s main loop, restricted to the wake-triggered
cycles: each detection runs `handle_conversation`; `self.running` (the
first component) is never written inside a cycle.  Returns the final
`running` flag and the spoken output of each completed cycle. -/
def run (cycles : List CycleOracle) : Bool × List (List String) :=
  cycles.foldl
    (fun acc o => if acc.1 then (acc.1, acc.2 ++ [handle_conversation o]) else acc)
    (true, [])

/-! ## Concrete inputs used by scenario conjuncts, witnesses and
counterexamples -/

/-- The spec scenario for trimming: a system message followed by 15
user/assistant append pairs, each pair appended through `send_message`
with a succeeding remote call (H = 10). -/
def scenarioHistory : List Message :=
  (List.range 15).foldl
    (fun acc i =>
      (send_message MAX_CONVERSATION_HISTORY acc ("question " ++ toString i)
        (fun _ => ApiOutcome.success ("answer " ++ toString i))).2)
    [⟨Role.system, "You are a helpful voice assistant."⟩]

/-- A 13-message history satisfying the invariant, used to witness the
trimming theorem. -/
def witnessHistory : List Message :=
  ⟨Role.system, "sys"⟩ :: (List.range 12).map fun i => ⟨Role.user, toString i⟩

/-- An engine whose property/command calls raise. -/
def badEngine : Pyttsx3Engine := { failsOnCommand := true, rate := 175, volume := 9/10 }

def badTTS : TextToSpeech := { engine := some badEngine, voice_rate := 175 }

/-- A healthy engine. -/
def goodEngine : Pyttsx3Engine := { failsOnCommand := false, rate := 175, volume := 9/10 }

def goodTTS : TextToSpeech := { engine := some goodEngine, voice_rate := 175 }

/-- A device whose first read returns a loud chunk and whose second read
raises: a mid-capture read failure after speech was detected. -/
def failingDevice : Nat → ChunkRead :=
  fun i => if i == 0 then ChunkRead.ok [1000] else ChunkRead.raise

/-- A message whose content is 400 characters long. -/
def msg400 : Message := ⟨Role.user, String.mk (List.replicate 400 'x')⟩

/-! ## Helper lemmas -/

theorem pySliceFrom_neg {α : Type} (l : List α) (k : Nat) (hk : 0 < k) :
    pySliceFrom l (-(k : Int)) = l.drop (l.length - k) := by
  unfold pySliceFrom
  rw [if_pos (by omega : -(k : Int) < 0)]
  congr 1
  omega

theorem pySliceFrom_eq_drop {α : Type} (l : List α) (s : Int) :
    ∃ n, pySliceFrom l s = l.drop n := by
  unfold pySliceFrom
  split
  · exact ⟨_, rfl⟩
  · exact ⟨_, rfl⟩

theorem pySliceFrom_negSub {α : Type} (l : List α) (H s : Nat) (hs : s < H) :
    pySliceFrom l (-((H : Int) - ((s : Nat) : Int))) = l.drop (l.length - (H - s)) := by
  have hcast : -((H : Int) - ((s : Nat) : Int)) = -(((H - s : Nat)) : Int) := by omega
  rw [hcast]
  exact pySliceFrom_neg l (H - s) (by omega)

theorem all_notSystem_of_suffix {l₁ l₂ : List Message}
    (hsuf : l₁.IsSuffix l₂) (hall : l₂.all notSystem = true) : l₁.all notSystem = true := by
  rw [List.all_eq_true] at hall ⊢
  exact fun x hx => hall x (hsuf.subset hx)

theorem historyInv_of_all {l : List Message} (h : l.all notSystem = true) :
    historyInv l = true := by
  cases l with
  | nil => rfl
  | cons m rest =>
    show rest.all notSystem = true
    rw [List.all_cons] at h
    exact (Bool.and_eq_true_iff.mp h).2

theorem filter_system_eq_nil {l : List Message} (hall : l.all notSystem = true) :
    l.filter isSystem = [] := by
  rw [List.filter_eq_nil_iff]
  rw [List.all_eq_true] at hall
  intro a ha
  have h1 := hall a ha
  simp only [notSystem, Bool.not_eq_true'] at h1
  simp [h1]

theorem filter_notSystem_eq_self {l : List Message} (hall : l.all notSystem = true) :
    l.filter notSystem = l := by
  rw [List.filter_eq_self]
  rw [List.all_eq_true] at hall
  exact hall

theorem inv_filter_system_length {h : List Message} (hinv : historyInv h = true) :
    (h.filter isSystem).length ≤ 1 := by
  cases h with
  | nil => simp
  | cons m rest =>
    have hall : rest.all notSystem = true := hinv
    by_cases hm : isSystem m = true
    · rw [List.filter_cons_of_pos hm, filter_system_eq_nil hall]
      simp
    · rw [List.filter_cons_of_neg hm, filter_system_eq_nil hall]
      simp

theorem trim_history_le (H : Nat) (h : List Message) (hle : h.length ≤ H) :
    _trim_history H h = h := by
  unfold _trim_history
  rw [if_neg (by omega)]

theorem trim_history_gt (H : Nat) (h : List Message) (hH : 2 ≤ H)
    (hinv : historyInv h = true) (hlen : H < h.length) :
    _trim_history H h =
      h.filter isSystem ++
        (h.filter notSystem).drop
          ((h.filter notSystem).length - (H - (h.filter isSystem).length)) := by
  cases h with
  | nil => simp at hlen
  | cons m rest =>
    have hall : rest.all notSystem = true := hinv
    have hrest_sys : rest.filter isSystem = [] := filter_system_eq_nil hall
    have hrest_not : rest.filter notSystem = rest := filter_notSystem_eq_self hall
    unfold _trim_history
    rw [if_pos hlen]
    by_cases hm : isSystem m = true
    · have hsys : (m :: rest).filter isSystem = [m] := by
        rw [List.filter_cons_of_pos hm, hrest_sys]
      have hnot : (m :: rest).filter notSystem = rest := by
        rw [List.filter_cons_of_neg (by simp [notSystem, hm]), hrest_not]
      rw [hsys, hnot]
      congr 1
      exact pySliceFrom_negSub rest H ([m] : List Message).length (by simp; omega)
    · have hsys : (m :: rest).filter isSystem = [] := by
        rw [List.filter_cons_of_neg hm, hrest_sys]
      have hnot : (m :: rest).filter notSystem = m :: rest := by
        rw [List.filter_cons_of_pos (by simp [notSystem, hm]), hrest_not]
      rw [hsys, hnot]
      congr 1
      exact pySliceFrom_negSub (m :: rest) H ([] : List Message).length (by simp; omega)

theorem historyInv_drop {l : List Message} (hinv : historyInv l = true) (n : Nat) :
    historyInv (l.drop n) = true := by
  cases n with
  | zero => exact hinv
  | succ k =>
    cases l with
    | nil => rfl
    | cons m rest =>
      have hall : rest.all notSystem = true := hinv
      exact historyInv_of_all (all_notSystem_of_suffix (List.drop_suffix k rest) hall)

theorem historyInv_trim (H : Nat) {h : List Message} (hinv : historyInv h = true) :
    historyInv (_trim_history H h) = true := by
  cases h with
  | nil =>
    rw [trim_history_le H [] (by simp)]
    rfl
  | cons m rest =>
    by_cases hlen : (m :: rest).length > H
    · have hall : rest.all notSystem = true := hinv
      unfold _trim_history
      rw [if_pos hlen]
      by_cases hm : isSystem m = true
      · rw [show (m :: rest).filter isSystem = [m] by
            rw [List.filter_cons_of_pos hm, filter_system_eq_nil hall],
          show (m :: rest).filter notSystem = rest by
            rw [List.filter_cons_of_neg (by simp [notSystem, hm]),
              filter_notSystem_eq_self hall]]
        obtain ⟨n, hn⟩ :=
          pySliceFrom_eq_drop rest (-((H : Int) - ((([m] : List Message).length : Nat) : Int)))
        rw [hn]
        exact all_notSystem_of_suffix (List.drop_suffix n rest) hall
      · rw [show (m :: rest).filter isSystem = [] by
            rw [List.filter_cons_of_neg hm, filter_system_eq_nil hall],
          show (m :: rest).filter notSystem = m :: rest by
            rw [List.filter_cons_of_pos (by simp [notSystem, hm]),
              filter_notSystem_eq_self hall]]
        obtain ⟨n, hn⟩ :=
          pySliceFrom_eq_drop (m :: rest) (-((H : Int) - ((([] : List Message).length : Nat) : Int)))
        rw [List.nil_append, hn]
        exact historyInv_drop hinv n
    · rw [trim_history_le H _ (by omega)]
      exact hinv

theorem historyInv_append_notSystem {h : List Message} {m : Message}
    (hinv : historyInv h = true) (hm : notSystem m = true) :
    historyInv (h ++ [m]) = true := by
  cases h with
  | nil => rfl
  | cons m0 rest =>
    have hall : rest.all notSystem = true := hinv
    show (rest ++ [m]).all notSystem = true
    rw [List.all_append]
    simp [hall, hm]

theorem notSystem_user (c : String) : notSystem ⟨Role.user, c⟩ = true := rfl

theorem notSystem_assistant (c : String) : notSystem ⟨Role.assistant, c⟩ = true := rfl

theorem historyInv_send (H : Nat) {h : List Message} (msg : String)
    (api : List Message → ApiOutcome) (hinv : historyInv h = true) :
    historyInv (send_message H h msg api).2 = true := by
  by_cases hempty : pyStrip msg = ""
  · simp [send_message, hempty, hinv]
  · have h1 : historyInv (h ++ [⟨Role.user, msg⟩]) = true :=
      historyInv_append_notSystem hinv (notSystem_user msg)
    cases happ : api (h ++ [⟨Role.user, msg⟩]) with
    | success text =>
      simp only [send_message, hempty, if_neg, ite_false, happ]
      exact historyInv_trim H (historyInv_append_notSystem h1 (notSystem_assistant (pyStrip text)))
    | rateLimitError => simp [send_message, hempty, happ, h1]
    | apiConnectionError => simp [send_message, hempty, happ, h1]
    | apiError => simp [send_message, hempty, happ, h1]
    | unexpectedError => simp [send_message, hempty, happ, h1]

theorem historyInv_reset {h : List Message} (hinv : historyInv h = true) :
    historyInv (reset_conversation h) = true := by
  unfold reset_conversation
  cases h with
  | nil => rfl
  | cons m rest =>
    have hall : rest.all notSystem = true := hinv
    by_cases hm : isSystem m = true
    · rw [List.filter_cons_of_pos hm, filter_system_eq_nil hall]
      rfl
    · rw [List.filter_cons_of_neg hm, filter_system_eq_nil hall]
      rfl

theorem trim_filter_system (H : Nat) (h : List Message) :
    (_trim_history H h).filter isSystem = h.filter isSystem := by
  unfold _trim_history
  split
  · rw [List.filter_append]
    have h1 : (h.filter isSystem).filter isSystem = h.filter isSystem := by
      rw [List.filter_eq_self]
      intro a ha
      exact (List.mem_filter.mp ha).2
    obtain ⟨n, hn⟩ :=
      pySliceFrom_eq_drop (h.filter notSystem) (-((H : Int) - ((h.filter isSystem).length : Int)))
    have h2 : (pySliceFrom (h.filter notSystem)
        (-((H : Int) - ((h.filter isSystem).length : Int)))).filter isSystem = [] := by
      rw [hn, List.filter_eq_nil_iff]
      intro a ha
      have hmem : a ∈ h.filter notSystem := (List.drop_suffix n _).subset ha
      have h3 := (List.mem_filter.mp hmem).2
      simp only [notSystem, Bool.not_eq_true'] at h3
      simp [h3]
    rw [h1, h2, List.append_nil]
  · rfl

theorem trim_filter_notSystem_suffix (H : Nat) (h : List Message) :
    ((_trim_history H h).filter notSystem).IsSuffix (h.filter notSystem) := by
  unfold _trim_history
  split
  · rw [List.filter_append]
    have h1 : (h.filter isSystem).filter notSystem = [] := by
      rw [List.filter_eq_nil_iff]
      intro a ha
      have h3 := (List.mem_filter.mp ha).2
      simp [notSystem, h3]
    obtain ⟨n, hn⟩ :=
      pySliceFrom_eq_drop (h.filter notSystem) (-((H : Int) - ((h.filter isSystem).length : Int)))
    rw [h1, List.nil_append, hn]
    have hsub : ((h.filter notSystem).drop n).filter notSystem = (h.filter notSystem).drop n := by
      rw [List.filter_eq_self]
      intro a ha
      have hmem : a ∈ h.filter notSystem := (List.drop_suffix n _).subset ha
      exact (List.mem_filter.mp hmem).2
    rw [hsub]
    exact List.drop_suffix n _
  · exact List.suffix_refl _

theorem run_foldl (cycles : List CycleOracle) (acc : List (List String)) :
    cycles.foldl
      (fun a o => if a.1 then (a.1, a.2 ++ [handle_conversation o]) else a)
      (true, acc) =
    (true, acc ++ cycles.map handle_conversation) := by
  induction cycles generalizing acc with
  | nil => simp
  | cons o rest ih =>
    simp only [List.foldl_cons, List.map_cons, if_pos]
    rw [ih]
    simp

theorem recordLoop_no_speech (thr ms : Nat) (device : Nat → ChunkRead)
    (hsilent : ∀ i chunk, device i = ChunkRead.ok chunk → chunkHasSpeech thr chunk = false) :
    ∀ fuel i frames silent,
      (recordLoop thr ms device i fuel frames silent false).2 = false := by
  intro fuel
  induction fuel with
  | zero =>
    intro i frames silent
    rfl
  | succ n ih =>
    intro i frames silent
    unfold recordLoop
    cases hdev : device i with
    | ok chunk =>
      have hq := hsilent i chunk hdev
      simp only [hq, Bool.false_eq_true, if_false]
      exact ih (i + 1) (frames ++ [chunk]) silent
    | raise => rfl

/-! ## Claim theorems -/

/-- C7: for every empty or whitespace-only user text, `send_message`
returns `none` and leaves the conversation history completely unchanged
(no message appended and no remote call issued). -/
theorem empty_input_guard (max_history : Nat) (history : List Message)
    (user_message : String) (api : List Message → ApiOutcome)
    (h : pyStrip user_message = "") :
    send_message max_history history user_message api = (none, history) := by
  simp [send_message, h]

/-- Witness for C7 at the two spec inputs `""` and `"   "`. -/
theorem empty_input_guard_witness :
    send_message 10 witnessHistory "" (fun _ => ApiOutcome.apiError) = (none, witnessHistory) ∧
    send_message 10 witnessHistory "   " (fun _ => ApiOutcome.apiError) = (none, witnessHistory) :=
  ⟨empty_input_guard 10 witnessHistory "" _ (by decide),
   empty_input_guard 10 witnessHistory "   " _ (by decide)⟩

/-- C9: `get_token_usage_estimate` is exactly the sum of the character
lengths of all message contents, integer-divided by 4; a history whose
contents total 400 characters yields exactly 100. -/
theorem token_estimate (history : List Message) :
    get_token_usage_estimate history = (history.map fun m => m.content.length).sum / 4 ∧
    ((history.map fun m => m.content.length).sum = 400 →
      get_token_usage_estimate history = 100) := by
  refine ⟨rfl, fun h => ?_⟩
  unfold get_token_usage_estimate
  rw [h]

/-- Witness for C9 at a single 400-character message. -/
theorem token_estimate_witness :
    ([msg400].map fun m => m.content.length).sum = 400 ∧
    get_token_usage_estimate [msg400] = 100 :=
  ⟨by decide, (token_estimate [msg400]).2 (by decide)⟩

/-- C10: for every non-whitespace-only user input, `send_message` returns a
non-null string — every remote-call failure, including uncategorized ones,
is converted to a fallback sentence rather than a `None` return. -/
theorem nonempty_always_some (max_history : Nat) (history : List Message)
    (user_message : String) (api : List Message → ApiOutcome)
    (h : pyStrip user_message ≠ "") :
    (send_message max_history history user_message api).1 ≠ none := by
  simp only [send_message, h, if_false, ite_false]
  cases api (history ++ [⟨Role.user, user_message⟩]) <;> simp

/-- Witness for C10 at a concrete input and an uncategorized failure. -/
theorem nonempty_always_some_witness :
    pyStrip "hi" ≠ "" ∧
    (send_message 10 [] "hi" (fun _ => ApiOutcome.unexpectedError)).1 ≠ none :=
  ⟨by decide, nonempty_always_some 10 [] "hi" _ (by decide)⟩

/-- C2: when the remote call fails on a non-empty input, `send_message`
appends no synthetic assistant message (the just-appended user message is
the last history entry) and returns the fixed fallback sentence of the
failure category; the four category sentences are pairwise distinct. -/
theorem failure_fallbacks (max_history : Nat) (history : List Message)
    (user_message : String) (api : List Message → ApiOutcome)
    (h : pyStrip user_message ≠ "") :
    (api (history ++ [⟨Role.user, user_message⟩]) = ApiOutcome.rateLimitError →
      send_message max_history history user_message api =
        (some rateLimitFallback, history ++ [⟨Role.user, user_message⟩])) ∧
    (api (history ++ [⟨Role.user, user_message⟩]) = ApiOutcome.apiConnectionError →
      send_message max_history history user_message api =
        (some connectionFallback, history ++ [⟨Role.user, user_message⟩])) ∧
    (api (history ++ [⟨Role.user, user_message⟩]) = ApiOutcome.apiError →
      send_message max_history history user_message api =
        (some apiErrorFallback, history ++ [⟨Role.user, user_message⟩])) ∧
    (api (history ++ [⟨Role.user, user_message⟩]) = ApiOutcome.unexpectedError →
      send_message max_history history user_message api =
        (some unexpectedFallback, history ++ [⟨Role.user, user_message⟩])) ∧
    rateLimitFallback ≠ connectionFallback ∧
    rateLimitFallback ≠ apiErrorFallback ∧
    rateLimitFallback ≠ unexpectedFallback ∧
    connectionFallback ≠ apiErrorFallback ∧
    connectionFallback ≠ unexpectedFallback ∧
    apiErrorFallback ≠ unexpectedFallback := by
  refine ⟨fun ha => ?_, fun ha => ?_, fun ha => ?_, fun ha => ?_,
    by decide, by decide, by decide, by decide, by decide, by decide⟩ <;>
    simp [send_message, h, ha]

/-- Witness for C2: a rate-limited and a connection-failed call at the same
concrete input produce their two distinct fixed sentences. -/
theorem failure_fallbacks_witness :
    send_message 10 [] "hi" (fun _ => ApiOutcome.rateLimitError) =
      (some rateLimitFallback, [⟨Role.user, "hi"⟩]) ∧
    send_message 10 [] "hi" (fun _ => ApiOutcome.apiConnectionError) =
      (some connectionFallback, [⟨Role.user, "hi"⟩]) ∧
    rateLimitFallback ≠ connectionFallback := by
  have h : pyStrip "hi" ≠ "" := by decide
  exact ⟨(failure_fallbacks 10 [] "hi" _ h).1 rfl,
    (failure_fallbacks 10 [] "hi" _ h).2.1 rfl,
    (failure_fallbacks 10 [] "hi" (fun _ => ApiOutcome.rateLimitError) h).2.2.2.2.1⟩

/-- C4: every wake-triggered cycle completes — a raised step inside a cycle
is converted to the spoken fixed error sentence, the loop stays running,
and in particular with a transcription that throws in the first cycle and
returns "hello" in the second, both cycles complete and the second reaches
the remote call (its spoken output is the remote response). -/
theorem cycle_isolation (cycles : List CycleOracle) (response : String) :
    (run cycles).1 = true ∧
    (run cycles).2.length = cycles.length ∧
    run [⟨StepResult.raise, StepResult.ok none⟩,
         ⟨StepResult.ok (some "hello"), StepResult.ok (some response)⟩] =
      (true, [[cycleErrorSentence], [response]]) := by
  refine ⟨?_, ?_, rfl⟩
  · rw [show run cycles = cycles.foldl
        (fun a o => if a.1 then (a.1, a.2 ++ [handle_conversation o]) else a) (true, []) from rfl,
      run_foldl]
  · rw [show run cycles = cycles.foldl
        (fun a o => if a.1 then (a.1, a.2 ++ [handle_conversation o]) else a) (true, []) from rfl,
      run_foldl]
    simp

/-- C1: for every conversation history satisfying the data-model invariant,
`_trim_history` keeps the system message (if present) followed by the most
recent `H - (1 if system present else 0)` non-system messages in original
order when the count exceeds `H`, is the identity otherwise, and is
idempotent; with `H = 10` and a system message, 15 user/assistant append
pairs leave exactly 10 messages: the system message followed by the most
recent 9 in original order. -/
theorem trim_policy (H : Nat) (h : List Message) (hH : 2 ≤ H)
    (hinv : historyInv h = true) :
    (H < h.length →
      _trim_history H h =
        h.filter isSystem ++
          (h.filter notSystem).drop
            ((h.filter notSystem).length - (H - (h.filter isSystem).length))) ∧
    (h.length ≤ H → _trim_history H h = h) ∧
    _trim_history H (_trim_history H h) = _trim_history H h ∧
    scenarioHistory.length = 10 ∧
    scenarioHistory =
      [⟨Role.system, "You are a helpful voice assistant."⟩,
       ⟨Role.assistant, "answer 10"⟩, ⟨Role.user, "question 11"⟩,
       ⟨Role.assistant, "answer 11"⟩, ⟨Role.user, "question 12"⟩,
       ⟨Role.assistant, "answer 12"⟩, ⟨Role.user, "question 13"⟩,
       ⟨Role.assistant, "answer 13"⟩, ⟨Role.user, "question 14"⟩,
       ⟨Role.assistant, "answer 14"⟩] := by
  refine ⟨fun hlen => trim_history_gt H h hH hinv hlen,
    fun hle => trim_history_le H h hle, ?_, by decide, by decide⟩
  by_cases hlen : H < h.length
  · have hde : _trim_history H (_trim_history H h) = _trim_history H h := by
      apply trim_history_le
      rw [trim_history_gt H h hH hinv hlen, List.length_append, List.length_drop]
      have hs := inv_filter_system_length hinv
      omega
    exact hde
  · have hde := trim_history_le H h (by omega)
    rw [hde]
    exact hde

/-- Witness for C1 at `H = 10` and a concrete 13-message invariant-holding
history. -/
theorem trim_policy_witness :
    (2 ≤ 10 ∧ historyInv witnessHistory = true) ∧
    (10 < witnessHistory.length →
      _trim_history 10 witnessHistory =
        witnessHistory.filter isSystem ++
          (witnessHistory.filter notSystem).drop
            ((witnessHistory.filter notSystem).length -
              (10 - (witnessHistory.filter isSystem).length))) ∧
    _trim_history 10 (_trim_history 10 witnessHistory) = _trim_history 10 witnessHistory :=
  ⟨⟨by decide, by decide⟩,
   (trim_policy 10 witnessHistory (by decide) (by decide)).1,
   (trim_policy 10 witnessHistory (by decide) (by decide)).2.2.1⟩

/-- C3: under the history invariant (at most one system message, first when
present), every session operation — `_trim_history`, `reset_conversation`
and `send_message` — preserves the invariant; trimming keeps the system
messages exactly and keeps the remaining non-system messages as a suffix
of the original non-system messages, preserving their insertion order. -/
theorem session_invariant (H : Nat) (h : List Message) (msg : String)
    (api : List Message → ApiOutcome) (hinv : historyInv h = true) :
    historyInv (_trim_history H h) = true ∧
    historyInv (reset_conversation h) = true ∧
    historyInv (send_message H h msg api).2 = true ∧
    (_trim_history H h).filter isSystem = h.filter isSystem ∧
    ((_trim_history H h).filter notSystem).IsSuffix (h.filter notSystem) :=
  ⟨historyInv_trim H hinv, historyInv_reset hinv, historyInv_send H msg api hinv,
   trim_filter_system H h, trim_filter_notSystem_suffix H h⟩

/-- Witness for C3 at a concrete invariant-holding history. -/
theorem session_invariant_witness :
    historyInv witnessHistory = true ∧
    historyInv (_trim_history 10 witnessHistory) = true ∧
    historyInv
      (send_message 10 witnessHistory "hi" (fun _ => ApiOutcome.success "ok")).2 = true ∧
    (_trim_history 10 witnessHistory).filter isSystem = witnessHistory.filter isSystem :=
  ⟨by decide,
   (session_invariant 10 witnessHistory "hi" (fun _ => ApiOutcome.success "ok") (by decide)).1,
   (session_invariant 10 witnessHistory "hi" (fun _ => ApiOutcome.success "ok") (by decide)).2.2.1,
   (session_invariant 10 witnessHistory "hi" (fun _ => ApiOutcome.success "ok") (by decide)).2.2.2.1⟩

/-- C8: if no successfully read chunk's mean absolute amplitude ever
exceeds the silence threshold, `record_audio` returns `none` — never an
empty-but-non-null or all-silence buffer. -/
theorem silence_guard (silence_threshold max_silent_chunks max_chunks : Nat)
    (device : Nat → ChunkRead)
    (hsilent : ∀ i chunk, device i = ChunkRead.ok chunk →
      chunkHasSpeech silence_threshold chunk = false) :
    record_audio silence_threshold max_silent_chunks max_chunks device = none := by
  have h2 := recordLoop_no_speech silence_threshold max_silent_chunks device hsilent
    max_chunks 0 [] 0
  simp [record_audio, h2]

/-- Witness for C8 at an all-silence device. -/
theorem silence_guard_witness :
    record_audio 500 3 5 (fun _ => ChunkRead.ok [0, 0]) = none :=
  silence_guard 500 3 5 (fun _ => ChunkRead.ok [0, 0])
    (fun i chunk h => by
      injection h with h2
      subst h2
      decide)

/-- C5 counterexample: `failingDevice`'s second read raises mid-capture
(after a loud first chunk), yet `record_audio` returns the captured audio
as a successful utterance — not `none` and not a surfaced capture error —
refuting the claim that a mid-capture read failure is surfaced as a
capture error. -/
theorem capture_error_counterexample :
    failingDevice 1 = ChunkRead.raise ∧
    record_audio 500 3 10 failingDevice = some [1000] := by
  exact ⟨rfl, rfl⟩

/-- C5 amended: when a device read raises mid-capture, the loop stops
immediately with the frames accumulated so far — no retry and no further
reads inside the call — and `record_audio` surfaces the capture as `none`
exactly when no speech had been detected; if speech had been detected, the
audio captured so far is returned as a successful utterance. -/
theorem capture_read_failure_amended (silence_threshold max_silent_chunks max_chunks : Nat)
    (fuel i silent_chunks : Nat) (device : Nat → ChunkRead)
    (frames : List (List Int)) (has_speech : Bool)
    (hfail : device i = ChunkRead.raise) :
    recordLoop silence_threshold max_silent_chunks device i (fuel + 1) frames
      silent_chunks has_speech = (frames, has_speech) ∧
    (record_audio silence_threshold max_silent_chunks max_chunks device = none ↔
      (recordLoop silence_threshold max_silent_chunks device 0 max_chunks [] 0 false).2
        = false) := by
  constructor
  · unfold recordLoop
    rw [hfail]
  · unfold record_audio
    cases h2 : (recordLoop silence_threshold max_silent_chunks device 0 max_chunks [] 0 false).2 <;>
      simp [h2]

/-- Witness for C5's amended theorem at a device that raises at once. -/
theorem capture_read_failure_witness :
    recordLoop 500 3 (fun _ => ChunkRead.raise) 0 1 [] 0 false = ([], false) ∧
    (record_audio 500 3 1 (fun _ => ChunkRead.raise) = none ↔
      (recordLoop 500 3 (fun _ => ChunkRead.raise) 0 1 [] 0 false).2 = false) :=
  capture_read_failure_amended 500 3 1 0 0 0 (fun _ => ChunkRead.raise) [] false rfl

/-- C6 counterexample: with an engine whose property calls raise,
`set_rate` and `set_volume` propagate the engine error to the caller
instead of catching it — refuting the claim that all three operations
swallow engine errors. -/
theorem tts_swallow_counterexample :
    TextToSpeech.set_rate badTTS 200 = Except.error () ∧
    TextToSpeech.set_volume badTTS (1/2) = Except.error () := by
  exact ⟨rfl, rfl⟩

/-- C6 amended: `stop` is best-effort (it catches and logs any engine
error, never propagating); `set_rate` and `set_volume` are not — an engine
error in `setProperty` propagates to the caller; `set_volume` clamps its
argument into [0, 1] before applying it. -/
theorem tts_best_effort_amended (t : TextToSpeech) (e : Pyttsx3Engine)
    (rate : Int) (volume : Rat) (he : t.engine = some e) :
    TextToSpeech.stop t = Except.ok t ∧
    (e.failsOnCommand = true →
      TextToSpeech.set_rate t rate = Except.error () ∧
      TextToSpeech.set_volume t volume = Except.error ()) ∧
    (e.failsOnCommand = false →
      TextToSpeech.set_rate t rate =
        Except.ok { engine := some { e with rate := rate }, voice_rate := rate } ∧
      TextToSpeech.set_volume t volume =
        Except.ok { t with engine := some { e with volume := max 0 (min 1 volume) } } ∧
      0 ≤ max 0 (min 1 volume) ∧ max 0 (min 1 volume) ≤ (1 : Rat)) := by
  refine ⟨?_, fun hf => ?_, fun hf => ?_⟩
  · unfold TextToSpeech.stop
    rw [he]
  · unfold TextToSpeech.set_rate TextToSpeech.set_volume
    rw [he]
    simp [hf]
  · unfold TextToSpeech.set_rate TextToSpeech.set_volume
    rw [he]
    refine ⟨by simp [hf], by simp [hf], le_max_left 0 _, ?_⟩
    exact max_le (by norm_num) (min_le_left 1 volume)

/-- Witness for C6's amended theorem: the failing engine propagates from
`set_rate`, and the healthy engine clamps an out-of-range volume. -/
theorem tts_best_effort_witness :
    (TextToSpeech.stop badTTS = Except.ok badTTS ∧
      TextToSpeech.set_rate badTTS 200 = Except.error ()) ∧
    TextToSpeech.set_volume goodTTS 2 =
      Except.ok { goodTTS with
        engine := some { goodEngine with volume := max 0 (min 1 (2 : Rat)) } } :=
  ⟨⟨(tts_best_effort_amended badTTS badEngine 200 (1/2) rfl).1,
    ((tts_best_effort_amended badTTS badEngine 200 (1/2) rfl).2.1 rfl).1⟩,
   ((tts_best_effort_amended goodTTS goodEngine 200 2 rfl).2.2 rfl).2.1⟩

end VA
